import Mathlib

/-!
Shallow embedding of `src/controller/camera/services/stream.service.js`
(camera.ui `StreamService`): the ordered ffmpeg option set, the command
builder, and the stream-session lifecycle with admission control and
logging, together with theorems settling the specification claims.
-/

namespace StreamServiceModel

/-- An ordered flag-name to value mapping, mirroring a JS object used as an
ordered dictionary (`streamOptions.ffmpegOptions`). A JS object never holds
a key twice; assignment to an existing key updates its value in place,
assignment to a fresh key appends it at the end. -/
abbrev OptionSet := List (String × String)

/-- JS `obj[k] = v`: replace the (unique) existing entry in place, keeping
its position, else append the new entry at the end. -/
def oset : OptionSet → String → String → OptionSet
  | [], k, v => [(k, v)]
  | p :: m, k, v => if p.1 == k then (k, v) :: m else p :: oset m k v

/-- JS `delete obj[k]`. -/
def odel : OptionSet → String → OptionSet
  | [], _ => []
  | p :: m, k => if p.1 == k then odel m k else p :: odel m k

/-- JS `k in obj` / `Object.keys(obj).includes(k)`. -/
def hasKey : OptionSet → String → Bool
  | [], _ => false
  | p :: m, k => p.1 == k || hasKey m k

/-- JS `obj[k]` (first entry with the key, `none` when absent). -/
def oget? : OptionSet → String → Option String
  | [], _ => none
  | p :: m, k => if p.1 == k then some p.2 else oget? m k

/-- Number of entries carrying key `k` (1 for every key of a real JS object,
used to state "exactly one" properties). -/
def countKey : OptionSet → String → Nat
  | [], _ => 0
  | p :: m, k => (if p.1 == k then 1 else 0) + countKey m k

theorem hasKey_oset_self (m : OptionSet) (k v : String) :
    hasKey (oset m k v) k = true := by
  induction m with
  | nil => simp [oset, hasKey]
  | cons p m ih =>
    by_cases h : p.1 = k
    · simp [oset, hasKey, h]
    · simp [oset, hasKey, h, ih]

theorem hasKey_oset_ne (m : OptionSet) (k v k' : String) (hne : k' ≠ k) :
    hasKey (oset m k v) k' = hasKey m k' := by
  induction m with
  | nil => simp [oset, hasKey, Ne.symm hne]
  | cons p m ih =>
    by_cases h : p.1 = k
    · simp [oset, hasKey, h, Ne.symm hne]
    · simp [oset, hasKey, h, ih]

theorem oget?_oset_self (m : OptionSet) (k v : String) :
    oget? (oset m k v) k = some v := by
  induction m with
  | nil => simp [oset, oget?]
  | cons p m ih =>
    by_cases h : p.1 = k
    · simp [oset, oget?, h]
    · simp [oset, oget?, h, ih]

theorem hasKey_odel_self (m : OptionSet) (k : String) :
    hasKey (odel m k) k = false := by
  induction m with
  | nil => simp [odel, hasKey]
  | cons p m ih =>
    by_cases h : p.1 = k
    · simp [odel, h, ih]
    · simp [odel, hasKey, h, ih]

theorem hasKey_odel_ne (m : OptionSet) (k k' : String) (hne : k' ≠ k) :
    hasKey (odel m k) k' = hasKey m k' := by
  induction m with
  | nil => simp [odel]
  | cons p m ih =>
    by_cases h : p.1 = k
    · simp [odel, hasKey, h, ih, Ne.symm hne]
    · simp [odel, hasKey, h, ih]

theorem oget?_oset_ne (m : OptionSet) (k v k' : String) (hne : k' ≠ k) :
    oget? (oset m k v) k' = oget? m k' := by
  induction m with
  | nil => simp [oset, oget?, Ne.symm hne]
  | cons p m ih =>
    by_cases h : p.1 = k
    · simp [oset, oget?, h, Ne.symm hne]
    · simp [oset, oget?, h, ih]

theorem countKey_oset_self (m : OptionSet) (k v : String) :
    countKey (oset m k v) k =
      if hasKey m k then countKey m k else countKey m k + 1 := by
  induction m with
  | nil => simp [oset, countKey, hasKey]
  | cons p m ih =>
    by_cases h : p.1 = k
    · simp [oset, countKey, hasKey, h]
    · by_cases h2 : hasKey m k = true
      · simp [oset, countKey, hasKey, h, h2] at ih ⊢
        omega
      · simp [oset, countKey, hasKey, h, h2] at ih ⊢
        omega

theorem countKey_oset_ne (m : OptionSet) (k v k' : String) (hne : k' ≠ k) :
    countKey (oset m k v) k' = countKey m k' := by
  induction m with
  | nil => simp [oset, countKey, Ne.symm hne]
  | cons p m ih =>
    by_cases h : p.1 = k
    · simp [oset, countKey, h, Ne.symm hne]
    · simp [oset, countKey, h, ih]

theorem countKey_odel_self (m : OptionSet) (k : String) :
    countKey (odel m k) k = 0 := by
  induction m with
  | nil => simp [odel, countKey]
  | cons p m ih =>
    by_cases h : p.1 = k
    · simp [odel, h, ih]
    · simp [odel, countKey, h, ih]

theorem countKey_odel_ne (m : OptionSet) (k k' : String) (hne : k' ≠ k) :
    countKey (odel m k) k' = countKey m k' := by
  induction m with
  | nil => simp [odel]
  | cons p m ih =>
    by_cases h : p.1 = k
    · simp [odel, countKey, h, ih, Ne.symm hne]
    · simp [odel, countKey, h, ih]

/-! ### The camera configuration and the command builder -/

/-- `camera.videoConfig` fields read by `StreamService` (plus `camera.name`).
Optional JS fields that are tested for truthiness are `Option`s, with `none`
standing for an absent or falsy value. Numeric fields are rendered with
`toString` where the source interpolates or pushes them. -/
structure VideoConfig where
  name : String
  source : String
  maxWidth : Nat
  maxHeight : Nat
  maxBitrate : Nat
  maxFPS : Nat
  encoderOptions : String
  mapvideo : Option String
  videoFilter : Option String
  audio : Bool
  mapaudio : Option String
  debug : Bool
deriving DecidableEq

/-- The `-s` value built in the constructor from maxWidth and maxHeight. -/
def resolutionString (c : VideoConfig) : String :=
  toString c.maxWidth ++ "x" ++ toString c.maxHeight

/-- The fixed audio bundle spread into `ffmpegOptions` when audio is enabled
(constructor lines 56–62 and `configureStreamOptions` lines 84–90). A JS
spread with these four keys updates existing entries in place and appends
fresh ones, which is `oset` per key. -/
def addAudioBundle (m : OptionSet) : OptionSet :=
  oset (oset (oset (oset m "-codec:a" "mp2") "-ar" "44100") "-ac" "1") "-b:a" "128k"

/-- `ffmpegOptions` as built by the `StreamService` constructor
(lines 32–67). -/
def baseOptions (c : VideoConfig) : OptionSet :=
  let m : OptionSet :=
    [("-s", resolutionString c),
     ("-b:v", toString c.maxBitrate),
     ("-r", toString c.maxFPS),
     ("-bf", "0"),
     ("-preset", c.encoderOptions),
     ("-threads", "1"),
     ("-loglevel", "error")]
  let m := match c.mapvideo with
    | some v => oset m "-map" v
    | none => m
  let m := match c.videoFilter with
    | some f => oset m "-filter:v" f
    | none => m
  if c.audio then
    let m := odel m "-an"
    let m := addAudioBundle m
    match c.mapaudio with
    | some a => oset m "-map" a
    | none => m
  else m

/-- A persisted per-camera settings record (`settings.cameras` entry in the
interface database). `audio` is `Option Bool` so that an absent field and an
explicit `false` are both falsy, as in the JS truthiness test. -/
structure CameraSetting where
  name : String
  resolution : Option String
  audio : Option Bool
deriving DecidableEq

/-- JS truthiness of an optional boolean field. -/
def jsTruthy : Option Bool → Bool
  | some b => b
  | none => false

/-- `cameraSettings.find((camera) => camera && camera.name === this.cameraName)`
(line 74): entries may be null, the first record matching the name wins. -/
def findCameraSetting (settings : List (Option CameraSetting)) (nm : String) :
    Option CameraSetting :=
  match settings.find? (fun c => match c with
    | some c => c.name == nm
    | none => false) with
  | some (some c) => some c
  | _ => none

/-- `configureStreamOptions` (lines 70–100), applied to the settings record
found for this camera (`none` when no record matches: the options are left
unchanged). -/
def configureStreamOptions (setting? : Option CameraSetting) (m : OptionSet) :
    OptionSet :=
  match setting? with
  | none => m
  | some st =>
    let m := match st.resolution with
      | some r => oset m "-s" r
      | none => m
    if jsTruthy st.audio then
      addAudioBundle (odel m "-an")
    else
      oset (odel (odel (odel (odel m "-codec:a") "-ar") "-ac") "-b:a") "-an" ""

/-- `setStreamOptions` (lines 191–195): merge arbitrary flag/value pairs. -/
def setStreamOptions (options : List (String × String)) (m : OptionSet) :
    OptionSet :=
  options.foldl (fun m p => oset m p.1 p.2) m

/-- `delStreamOptions` (lines 197–201): remove the named flags. -/
def delStreamOptions (options : List String) (m : OptionSet) : OptionSet :=
  options.foldl (fun m k => odel m k) m

/-- The `additionalFlags` loop of `start` (lines 107–113): each option-set
entry contributes its name then its value. -/
def additionalFlags : OptionSet → List String
  | [] => []
  | p :: m => p.1 :: p.2 :: additionalFlags m

/-- The `spawnOptions` array of `start` (lines 115–128): source tokenized on
single spaces, fixed format/codec flags, the option-set entries, fixed
quality/muxing/banner flags and the stdout marker, with every empty-string
token dropped by the final `filter`. -/
def spawnOptions (source : String) (m : OptionSet) : List String :=
  ((source.splitOn " ")
    ++ ["-f", "mpegts", "-codec:v", "mpeg1video"]
    ++ additionalFlags m
    ++ ["-q", "1", "-hide_banner", "-max_muxing_queue_size", "1024", "-"]).filter
    (fun key => key ≠ "")

/-! ### The session lifecycle state machine -/

/-- One entry of the logging collaborator. -/
inductive LogEntry where
  | error (msg : String) (ctx : String)
  | warn (msg : String) (ctx : String)
  | debug (msg : String) (ctx : String)
deriving DecidableEq

/-- The mutable `streamOptions` record of a `StreamService` instance. -/
structure StreamOptions where
  source : String
  ffmpegOptions : OptionSet
deriving DecidableEq

/-- The observable state of one `StreamService` instance.  `streamSession`
holds the pid of the live child process (`none` = the JS `null`); the
counters record how often `requestSession` was called, how often it granted
a slot, how often `closeSession` released one, and how many processes were
spawned.  `log` is the most-recent-first log stream. -/
structure SessionState where
  cameraName : String
  streamOptions : StreamOptions
  streamSession : Option Nat
  admissionRequests : Nat
  slotsGranted : Nat
  slotsReleased : Nat
  spawned : Nat
  log : List LogEntry
deriving DecidableEq

/-- The `StreamService` constructor (lines 22–68): stores identity, logs a
debug line, builds the base options, and leaves `streamSession` null. -/
def mkStreamService (c : VideoConfig) : SessionState :=
  { cameraName := c.name
    streamOptions := { source := c.source, ffmpegOptions := baseOptions c }
    streamSession := none
    admissionRequests := 0
    slotsGranted := 0
    slotsReleased := 0
    spawned := 0
    log := [LogEntry.debug "Initializing camera stream" c.name] }

/-- Events driving one session: a `start()` call together with the answer
the admission controller would give to `requestSession`, and the exit
callback of the live process with its exit code and optional signal. -/
inductive Event where
  | start (allow : Bool)
  | exit (code : Option Int) (signal : Option String)
deriving DecidableEq

/-- JS string interpolation of a possibly-null signal value. -/
def signalText : Option String → String
  | some s => s
  | none => "null"

/-- The capacity error logged on admission denial (line 162). -/
def capacityErrorMsg : String := "Not allowed to start stream. Session limit exceeded!"

/-- One step of the session state machine, embedding `start` (lines 102–165)
and the `exit` handler (lines 151–160).  `start` is guarded on
`!this.streamSession`; on grant it logs the assembled command, spawns the
process and installs the handle; on denial it logs the capacity error.  The
exit handler classifies the termination by `code === 1`, clears the handle
and releases the slot via `closeSession`. -/
def step (s : SessionState) : Event → SessionState
  | Event.start allow =>
    if s.streamSession.isSome then s
    else
      let s1 := { s with admissionRequests := s.admissionRequests + 1 }
      if allow then
        { s1 with
          log := LogEntry.debug
              ("Stream command: " ++ String.intercalate " "
                (spawnOptions s1.streamOptions.source s1.streamOptions.ffmpegOptions))
              s1.cameraName :: s1.log
          streamSession := some s1.spawned
          spawned := s1.spawned + 1
          slotsGranted := s1.slotsGranted + 1 }
      else
        { s1 with log := LogEntry.error capacityErrorMsg s1.cameraName :: s1.log }
  | Event.exit code signal =>
    match s.streamSession with
    | some _ =>
      let entry :=
        if code = some (1 : Int) then
          LogEntry.error ("Stream exited with error! (" ++ signalText signal ++ ")")
            s.cameraName
        else
          LogEntry.debug "Stream exit (expected)" s.cameraName
      { s with
        streamSession := none
        slotsReleased := s.slotsReleased + 1
        log := entry :: s.log }
    | none => s

/-- Run a sequence of events from a state. -/
def run (s : SessionState) (es : List Event) : SessionState := es.foldl step s

/-- A trace is valid when every exit event fires while a process is live:
the exit handler is registered on the spawned child, so it can only fire
(once) for the process currently held in `streamSession`. -/
def validFrom (s : SessionState) : List Event → Bool
  | [] => true
  | e :: es =>
    (match e with
      | Event.exit _ _ => s.streamSession.isSome
      | _ => true) && validFrom (step s e) es

/-- Slot conservation: the slots granted so far are exactly the slots
released plus the one still held by a live process. -/
def slotInv (s : SessionState) : Bool :=
  s.slotsGranted == s.slotsReleased + (if s.streamSession.isSome then 1 else 0)

/-- A JS runtime exception. -/
inductive JsError where
  | typeError (msg : String)
deriving DecidableEq

/-- `setStreamSource` (lines 183–189).  The source evaluates
`source.inludes('-i')`: `inludes` is not a method of JS strings (the
property lookup yields `undefined`), so the call raises a
`TypeError` for every input, before either branch can run. -/
def setStreamSource (opts : StreamOptions) (source : String) :
    Except JsError (StreamOptions × List LogEntry) :=
  Except.error (JsError.typeError "source.inludes is not a function")

/-! ### Helper lemmas for the lifecycle claims -/

theorem slotInv_step (s : SessionState) (e : Event) (h : slotInv s = true) :
    slotInv (step s e) = true := by
  cases e with
  | start allow =>
    by_cases hs : s.streamSession.isSome = true
    · simp [step, hs, h]
    · cases allow
      · simp [slotInv, step, hs] at h ⊢
        omega
      · simp [slotInv, step, hs] at h ⊢
        omega
  | exit code signal =>
    cases hss : s.streamSession with
    | none => simpa [step, hss] using h
    | some pid =>
      simp [slotInv, step, hss] at h ⊢
      omega

theorem slotInv_run (s : SessionState) (es : List Event) (h : slotInv s = true) :
    slotInv (run s es) = true := by
  induction es generalizing s with
  | nil => exact h
  | cons e es ih =>
    show slotInv (List.foldl step (step s e) es) = true
    exact ih (step s e) (slotInv_step s e h)

/-- A concrete camera configuration used by the witnesses. -/
def sampleConfig : VideoConfig :=
  { name := "cam"
    source := "-i rtsp://127.0.0.1/stream"
    maxWidth := 1280
    maxHeight := 720
    maxBitrate := 300
    maxFPS := 15
    encoderOptions := "ultrafast"
    mapvideo := none
    videoFilter := none
    audio := false
    mapaudio := none
    debug := false }

/-- A concrete event trace used by the C1 witness: a granted start, an
abnormal exit, a denied start, a granted start and an expected exit. -/
def sampleEvents : List Event :=
  [Event.start true, Event.exit (some 1) (some "SIGSEGV"), Event.start false,
   Event.start true, Event.exit none (some "SIGTERM")]

/-! ### Claim theorems: session lifecycle -/

/-- C1: along every valid execution of a session, the admission slots
granted by successful `requestSession` calls during `start()` equal the
slots released by `closeSession` in the exit callback plus the single slot
held by the live process — so every grant is released exactly once by its
exit (abnormal exits included), a slot is never released on denial, and
never released twice. -/
theorem slot_conservation (c : VideoConfig) (es : List Event)
    (h : validFrom (mkStreamService c) es = true) :
    slotInv (run (mkStreamService c) es) = true :=
  slotInv_run (mkStreamService c) es (by simp [slotInv, mkStreamService])

theorem slot_conservation_witness :
    validFrom (mkStreamService sampleConfig) sampleEvents = true ∧
    slotInv (run (mkStreamService sampleConfig) sampleEvents) = true :=
  ⟨by decide, slot_conservation sampleConfig sampleEvents (by decide)⟩

/-- C2: when the session is Idle (`streamSession` null) and the admission
controller denies the slot, `start()` spawns no process, grants and
releases no slot, leaves the stream options and the null handle unchanged,
and only logs the capacity error. -/
theorem start_denied_noop (s : SessionState) (h : s.streamSession = none) :
    (step s (Event.start false)).streamSession = none ∧
    (step s (Event.start false)).spawned = s.spawned ∧
    (step s (Event.start false)).slotsGranted = s.slotsGranted ∧
    (step s (Event.start false)).slotsReleased = s.slotsReleased ∧
    (step s (Event.start false)).streamOptions = s.streamOptions ∧
    (step s (Event.start false)).log =
      LogEntry.error capacityErrorMsg s.cameraName :: s.log := by
  simp [step, h]

theorem start_denied_noop_witness :
    (mkStreamService sampleConfig).streamSession = none ∧
    (step (mkStreamService sampleConfig) (Event.start false)).spawned =
      (mkStreamService sampleConfig).spawned ∧
    (step (mkStreamService sampleConfig) (Event.start false)).streamSession = none :=
  ⟨rfl, (start_denied_noop (mkStreamService sampleConfig) rfl).2.1,
    (start_denied_noop (mkStreamService sampleConfig) rfl).1⟩

/-- C3: while a session holds a live process, `start()` is a complete
no-op whatever the admission controller would answer: the state — handle,
spawn count, admission-request count, options, log — is unchanged, so two
`start()` calls without an intervening exit spawn exactly one process and
make exactly one admission request. -/
theorem start_idempotent_running (s : SessionState) (allow : Bool)
    (h : s.streamSession.isSome = true) :
    step s (Event.start allow) = s := by
  simp [step, h]

theorem start_idempotent_running_witness :
    (run (mkStreamService sampleConfig) [Event.start true]).streamSession.isSome = true ∧
    step (run (mkStreamService sampleConfig) [Event.start true]) (Event.start true) =
      run (mkStreamService sampleConfig) [Event.start true] :=
  ⟨by decide,
    start_idempotent_running (run (mkStreamService sampleConfig) [Event.start true]) true
      (by decide)⟩

/-- C7: the exit callback of a live process clears the handle, releases the
slot, and logs the abnormal-termination error (carrying the terminating
signal) exactly when the exit code is the failure code 1, logging the
expected-termination debug line for every other outcome, signal
terminations after `stop()` included. -/
theorem exit_classification (s : SessionState) (code : Option Int)
    (signal : Option String) (h : s.streamSession.isSome = true) :
    (step s (Event.exit code signal)).streamSession = none ∧
    (step s (Event.exit code signal)).slotsReleased = s.slotsReleased + 1 ∧
    (step s (Event.exit code signal)).log =
      (if code = some (1 : Int) then
        LogEntry.error ("Stream exited with error! (" ++ signalText signal ++ ")")
          s.cameraName
      else
        LogEntry.debug "Stream exit (expected)" s.cameraName) :: s.log := by
  obtain ⟨pid, hpid⟩ := Option.isSome_iff_exists.mp h
  simp [step, hpid]

theorem exit_classification_witness :
    (run (mkStreamService sampleConfig) [Event.start true]).streamSession.isSome = true ∧
    (step (run (mkStreamService sampleConfig) [Event.start true])
        (Event.exit (some 1) (some "SIGKILL"))).streamSession = none :=
  ⟨by decide,
    (exit_classification (run (mkStreamService sampleConfig) [Event.start true])
        (some 1) (some "SIGKILL") (by decide)).1⟩

/-! ### Claim theorems: command assembly and sources -/

/-- C4: the argument list assembled by `start()` is the function
`spawnOptions` of the current stream options, ordered as the non-empty
source tokens, the fixed format/codec flags, the option-set entries in
insertion order as name/value tokens (empty tokens dropped), and the fixed
quality/muxing/banner flags with the stdout marker; it never contains an
empty-string token. -/
theorem spawnOptions_shape (source : String) (m : OptionSet) :
    "" ∉ spawnOptions source m ∧
    spawnOptions source m =
      ((source.splitOn " ").filter (fun key => key ≠ ""))
        ++ ["-f", "mpegts", "-codec:v", "mpeg1video"]
        ++ ((additionalFlags m).filter (fun key => key ≠ ""))
        ++ ["-q", "1", "-hide_banner", "-max_muxing_queue_size", "1024", "-"] := by
  constructor
  · intro hmem
    rcases List.mem_filter.mp hmem with ⟨-, hkey⟩
    simp at hkey
  · unfold spawnOptions
    rw [List.filter_append, List.filter_append, List.filter_append]
    have h1 : (["-f", "mpegts", "-codec:v", "mpeg1video"] : List String).filter
        (fun key => key ≠ "") = ["-f", "mpegts", "-codec:v", "mpeg1video"] := by decide
    have h2 : (["-q", "1", "-hide_banner", "-max_muxing_queue_size", "1024", "-"] :
        List String).filter (fun key => key ≠ "") =
        ["-q", "1", "-hide_banner", "-max_muxing_queue_size", "1024", "-"] := by decide
    rw [h1, h2]

/-- The stream options of the sample camera, used at the C8 failing input. -/
def sampleStreamOptions : StreamOptions :=
  { source := "-i rtsp://127.0.0.1/stream", ffmpegOptions := baseOptions sampleConfig }

/-- C8: `setStreamSource` raises a TypeError at the failing input
`"rtsp://127.0.0.1/stream"` (a source without `-i`) instead of logging a
warning and returning: the guard calls the non-existent string method
`inludes`, a typo for `includes`, so no input reaches either branch. -/
theorem setStreamSource_throws :
    setStreamSource sampleStreamOptions "rtsp://127.0.0.1/stream" =
      Except.error (JsError.typeError "source.inludes is not a function") := rfl

theorem countKey_eq_zero_iff (m : OptionSet) (k : String) :
    countKey m k = 0 ↔ hasKey m k = false := by
  induction m with
  | nil => simp [countKey, hasKey]
  | cons p m ih =>
    by_cases h : p.1 = k <;> simp [countKey, hasKey, h, ih]

/-- C5: applying the override layer with audio enabled and then with audio
disabled leaves an Option Set with none of the audio-bundle flags and
exactly one bare `-an` marker; applying it with audio disabled and then
enabled leaves the full audio bundle and no `-an` marker. -/
theorem audio_toggle_symmetric (m : OptionSet) (nm nm' : String)
    (r r' : Option String) :
    (hasKey (configureStreamOptions (some ⟨nm', r', some false⟩)
        (configureStreamOptions (some ⟨nm, r, some true⟩) m)) "-codec:a" = false ∧
     hasKey (configureStreamOptions (some ⟨nm', r', some false⟩)
        (configureStreamOptions (some ⟨nm, r, some true⟩) m)) "-ar" = false ∧
     hasKey (configureStreamOptions (some ⟨nm', r', some false⟩)
        (configureStreamOptions (some ⟨nm, r, some true⟩) m)) "-ac" = false ∧
     hasKey (configureStreamOptions (some ⟨nm', r', some false⟩)
        (configureStreamOptions (some ⟨nm, r, some true⟩) m)) "-b:a" = false ∧
     countKey (configureStreamOptions (some ⟨nm', r', some false⟩)
        (configureStreamOptions (some ⟨nm, r, some true⟩) m)) "-an" = 1 ∧
     oget? (configureStreamOptions (some ⟨nm', r', some false⟩)
        (configureStreamOptions (some ⟨nm, r, some true⟩) m)) "-an" = some "") ∧
    (hasKey (configureStreamOptions (some ⟨nm, r, some true⟩)
        (configureStreamOptions (some ⟨nm', r', some false⟩) m)) "-codec:a" = true ∧
     hasKey (configureStreamOptions (some ⟨nm, r, some true⟩)
        (configureStreamOptions (some ⟨nm', r', some false⟩) m)) "-ar" = true ∧
     hasKey (configureStreamOptions (some ⟨nm, r, some true⟩)
        (configureStreamOptions (some ⟨nm', r', some false⟩) m)) "-ac" = true ∧
     hasKey (configureStreamOptions (some ⟨nm, r, some true⟩)
        (configureStreamOptions (some ⟨nm', r', some false⟩) m)) "-b:a" = true ∧
     hasKey (configureStreamOptions (some ⟨nm, r, some true⟩)
        (configureStreamOptions (some ⟨nm', r', some false⟩) m)) "-an" = false) := by
  cases r <;> cases r' <;>
    simp [configureStreamOptions, jsTruthy, addAudioBundle, hasKey_oset_self,
      hasKey_oset_ne, hasKey_odel_self, hasKey_odel_ne, oget?_oset_self,
      countKey_oset_self, countKey_oset_ne, countKey_odel_self, countKey_odel_ne,
      countKey_eq_zero_iff]

/-- A camera with audio enabled and both input maps, used by the C9
witness. -/
def cfgAV : VideoConfig :=
  { name := "cam3"
    source := "-i rtsp://10.0.0.2/live"
    maxWidth := 640
    maxHeight := 480
    maxBitrate := 199
    maxFPS := 10
    encoderOptions := "veryfast"
    mapvideo := some "0:0"
    videoFilter := none
    audio := true
    mapaudio := some "0:1"
    debug := true }

/-- C9: when audio is enabled and both `mapvideo` and `mapaudio` are set,
the constructed option set holds exactly one `-map` entry and its value is
the audio map — the audio map silently overwrites the video map. -/
theorem map_audio_overwrites_video (c : VideoConfig) (v a : String)
    (hv : c.mapvideo = some v) (ha : c.mapaudio = some a) (hau : c.audio = true) :
    countKey (baseOptions c) "-map" = 1 ∧ oget? (baseOptions c) "-map" = some a := by
  unfold baseOptions
  rw [hv, ha, hau]
  cases hvf : c.videoFilter <;>
    simp [addAudioBundle, countKey_oset_self, countKey_oset_ne, countKey_odel_ne,
      hasKey_oset_self, hasKey_oset_ne, hasKey_odel_ne, oget?_oset_self,
      countKey, hasKey]

theorem map_audio_overwrites_video_witness :
    cfgAV.mapvideo = some "0:0" ∧ cfgAV.mapaudio = some "0:1" ∧ cfgAV.audio = true ∧
    oget? (baseOptions cfgAV) "-map" = some "0:1" ∧
    countKey (baseOptions cfgAV) "-map" = 1 :=
  ⟨rfl, rfl, rfl, (map_audio_overwrites_video cfgAV "0:0" "0:1" rfl rfl rfl).2,
    (map_audio_overwrites_video cfgAV "0:0" "0:1" rfl rfl rfl).1⟩

/-- A camera with audio enabled in its base configuration, used by the C10
and C6 concrete instances. -/
def cfgAudioBase : VideoConfig :=
  { name := "cam4"
    source := "-i rtsp://10.0.0.3/live"
    maxWidth := 1920
    maxHeight := 1080
    maxBitrate := 299
    maxFPS := 20
    encoderOptions := "ultrafast"
    mapvideo := none
    videoFilter := none
    audio := true
    mapaudio := none
    debug := false }

/-- Persisted settings whose record for `cam4` matches by name but leaves
the audio field absent. -/
def sampleSettings : List (Option CameraSetting) :=
  [none, some ⟨"other", some "320x240", some true⟩, some ⟨"cam4", none, none⟩]

/-- C10: a persisted settings record matching the camera name whose audio
field is absent (or otherwise falsy) makes `configureStreamOptions` treat
audio as disabled: every audio-bundle flag is removed and the bare `-an`
marker installed, whatever the base configuration (audio enabled included)
put there. -/
theorem configure_audio_falsy_disables (c : VideoConfig)
    (settings : List (Option CameraSetting)) (st : CameraSetting)
    (hfind : findCameraSetting settings c.name = some st)
    (haudio : jsTruthy st.audio = false) :
    hasKey (configureStreamOptions (findCameraSetting settings c.name)
      (baseOptions c)) "-codec:a" = false ∧
    hasKey (configureStreamOptions (findCameraSetting settings c.name)
      (baseOptions c)) "-ar" = false ∧
    hasKey (configureStreamOptions (findCameraSetting settings c.name)
      (baseOptions c)) "-ac" = false ∧
    hasKey (configureStreamOptions (findCameraSetting settings c.name)
      (baseOptions c)) "-b:a" = false ∧
    oget? (configureStreamOptions (findCameraSetting settings c.name)
      (baseOptions c)) "-an" = some "" := by
  rw [hfind]
  cases hres : st.resolution <;>
    simp [configureStreamOptions, hres, haudio, hasKey_oset_ne, hasKey_odel_ne,
      hasKey_odel_self, hasKey_oset_self, oget?_oset_self]

theorem configure_audio_falsy_disables_witness :
    findCameraSetting sampleSettings cfgAudioBase.name =
      some ⟨"cam4", none, none⟩ ∧
    jsTruthy (⟨"cam4", none, none⟩ : CameraSetting).audio = false ∧
    hasKey (configureStreamOptions (findCameraSetting sampleSettings cfgAudioBase.name)
      (baseOptions cfgAudioBase)) "-codec:a" = false ∧
    oget? (configureStreamOptions (findCameraSetting sampleSettings cfgAudioBase.name)
      (baseOptions cfgAudioBase)) "-an" = some "" :=
  ⟨by decide, rfl,
    (configure_audio_falsy_disables cfgAudioBase sampleSettings ⟨"cam4", none, none⟩
      (by decide) rfl).1,
    (configure_audio_falsy_disables cfgAudioBase sampleSettings ⟨"cam4", none, none⟩
      (by decide) rfl).2.2.2.2⟩

/-! ### Reachability of option sets under the public mutation operations -/

/-- One public mutation of the option set after construction. -/
inductive Op where
  | configure (setting? : Option CameraSetting)
  | setOpts (options : List (String × String))
  | delOpts (options : List String)
deriving DecidableEq

def applyOp (m : OptionSet) : Op → OptionSet
  | Op.configure st? => configureStreamOptions st? m
  | Op.setOpts kvs => setStreamOptions kvs m
  | Op.delOpts ks => delStreamOptions ks m

def applyOps (m : OptionSet) (ops : List Op) : OptionSet := ops.foldl applyOp m

/-- The mutually exclusive audio flags: the no-audio marker and the audio
bundle. -/
def audioFamilyKeys : List String := ["-an", "-codec:a", "-ar", "-ac", "-b:a"]

/-- The option set never holds the `-an` marker together with an
audio-bundle flag. -/
def audioExclusive (m : OptionSet) : Prop :=
  ¬(hasKey m "-an" = true ∧
    (hasKey m "-codec:a" = true ∨ hasKey m "-ar" = true ∨
     hasKey m "-ac" = true ∨ hasKey m "-b:a" = true))

instance (m : OptionSet) : Decidable (audioExclusive m) := by
  unfold audioExclusive
  infer_instance

/-- C6 counterexample: from a camera constructed with audio enabled, the
single public operation `setStreamOptions({'-an': ''})` reaches an option
set holding the `-an` marker next to the full audio bundle, violating the
claimed invariant. -/
theorem audio_exclusive_counterexample :
    ¬ audioExclusive (applyOps (baseOptions cfgAudioBase)
      [Op.setOpts [("-an", "")]]) := by
  decide

/-- A `setStreamOptions` call that avoids the audio-family flags; the other
operations are unrestricted. -/
def opAvoidsAudioFamily : Op → Bool
  | Op.setOpts kvs => kvs.all (fun p => !(audioFamilyKeys.contains p.1))
  | _ => true

theorem hasKey_baseOptions_an (c : VideoConfig) :
    hasKey (baseOptions c) "-an" = false := by
  cases hmv : c.mapvideo <;> cases hvf : c.videoFilter <;> cases hau : c.audio <;>
    cases hma : c.mapaudio <;>
    simp [baseOptions, hmv, hvf, hau, hma, addAudioBundle, hasKey_oset_ne,
      hasKey_odel_self, hasKey_odel_ne, hasKey]

theorem audioExclusive_configure (st : CameraSetting) (m : OptionSet) :
    audioExclusive (configureStreamOptions (some st) m) := by
  unfold audioExclusive
  cases hres : st.resolution <;> cases hau : jsTruthy st.audio <;>
    simp [configureStreamOptions, hres, hau, addAudioBundle, hasKey_oset_self,
      hasKey_oset_ne, hasKey_odel_self, hasKey_odel_ne]

theorem hasKey_setStreamOptions_ne (kvs : List (String × String)) (m : OptionSet)
    (k : String) (h : ∀ p ∈ kvs, p.1 ≠ k) :
    hasKey (setStreamOptions kvs m) k = hasKey m k := by
  induction kvs generalizing m with
  | nil => rfl
  | cons p kvs ih =>
    show hasKey (setStreamOptions kvs (oset m p.1 p.2)) k = hasKey m k
    rw [ih (oset m p.1 p.2) (fun q hq => h q (List.mem_cons_of_mem p hq)),
      hasKey_oset_ne m p.1 p.2 k (Ne.symm (h p (List.mem_cons_self p kvs)))]

theorem hasKey_delStreamOptions_le (ks : List String) (m : OptionSet) (k : String)
    (h : hasKey (delStreamOptions ks m) k = true) : hasKey m k = true := by
  induction ks generalizing m with
  | nil => exact h
  | cons a ks ih =>
    have hd : hasKey (odel m a) k = true := ih (odel m a) h
    by_cases hk : k = a
    · rw [hk, hasKey_odel_self] at hd
      exact absurd hd (by simp)
    · rwa [hasKey_odel_ne m a k hk] at hd

theorem audioExclusive_applyOp (m : OptionSet) (op : Op)
    (hsafe : opAvoidsAudioFamily op = true) (h : audioExclusive m) :
    audioExclusive (applyOp m op) := by
  cases op with
  | configure st? =>
    cases st? with
    | none => exact h
    | some st => exact audioExclusive_configure st m
  | setOpts kvs =>
    have hnotin : ∀ p ∈ kvs, p.1 ∉ audioFamilyKeys := by
      intro p hp
      have hall := List.all_eq_true.mp hsafe p hp
      simpa using hall
    have hne : ∀ k ∈ audioFamilyKeys, ∀ p ∈ kvs, p.1 ≠ k := by
      intro k hk p hp heq
      exact hnotin p hp (heq ▸ hk)
    show audioExclusive (setStreamOptions kvs m)
    unfold audioExclusive at h ⊢
    rw [hasKey_setStreamOptions_ne kvs m "-an" (hne "-an" (by decide)),
      hasKey_setStreamOptions_ne kvs m "-codec:a" (hne "-codec:a" (by decide)),
      hasKey_setStreamOptions_ne kvs m "-ar" (hne "-ar" (by decide)),
      hasKey_setStreamOptions_ne kvs m "-ac" (hne "-ac" (by decide)),
      hasKey_setStreamOptions_ne kvs m "-b:a" (hne "-b:a" (by decide))]
    exact h
  | delOpts ks =>
    show audioExclusive (delStreamOptions ks m)
    unfold audioExclusive at h ⊢
    intro hboth
    apply h
    refine ⟨hasKey_delStreamOptions_le ks m "-an" hboth.1, ?_⟩
    rcases hboth.2 with h1 | h2 | h3 | h4
    · exact Or.inl (hasKey_delStreamOptions_le ks m "-codec:a" h1)
    · exact Or.inr (Or.inl (hasKey_delStreamOptions_le ks m "-ar" h2))
    · exact Or.inr (Or.inr (Or.inl (hasKey_delStreamOptions_le ks m "-ac" h3)))
    · exact Or.inr (Or.inr (Or.inr (hasKey_delStreamOptions_le ks m "-b:a" h4)))

theorem audioExclusive_applyOps (m : OptionSet) (ops : List Op)
    (hops : ops.all opAvoidsAudioFamily = true) (h : audioExclusive m) :
    audioExclusive (applyOps m ops) := by
  induction ops generalizing m with
  | nil => exact h
  | cons op ops ih =>
    have hsplit : opAvoidsAudioFamily op = true ∧ ops.all opAvoidsAudioFamily = true := by
      simpa [List.all_cons] using hops
    rcases hsplit with ⟨h1, h2⟩
    show audioExclusive (List.foldl applyOp (applyOp m op) ops)
    exact ih (applyOp m op) h2 (audioExclusive_applyOp m op h1 h)

/-- C6 amended: after construction from any camera configuration and any
sequence of `configureStreamOptions` and `delStreamOptions` calls together
with `setStreamOptions` calls whose flags avoid the audio family
(`-an`, `-codec:a`, `-ar`, `-ac`, `-b:a`), the option set never holds the
`-an` marker together with an audio-bundle flag.  (A `setStreamOptions`
call merging an audio-family flag directly can break the invariant, as the
counterexample shows.) -/
theorem audio_exclusive_inv (c : VideoConfig) (ops : List Op)
    (hops : ops.all opAvoidsAudioFamily = true) :
    audioExclusive (applyOps (baseOptions c) ops) :=
  audioExclusive_applyOps (baseOptions c) ops hops (by
    unfold audioExclusive
    rw [hasKey_baseOptions_an c]
    simp)

/-- A sample operation sequence avoiding the audio-family flags. -/
def sampleOps : List Op :=
  [Op.configure (some ⟨"cam4", some "640x480", some true⟩),
   Op.setOpts [("-vf", "scale=640:480"), ("-threads", "2")],
   Op.delOpts ["-r"],
   Op.configure (some ⟨"cam4", none, none⟩)]

theorem audio_exclusive_inv_witness :
    sampleOps.all opAvoidsAudioFamily = true ∧
    audioExclusive (applyOps (baseOptions cfgAudioBase) sampleOps) :=
  ⟨by decide, audio_exclusive_inv cfgAudioBase sampleOps (by decide)⟩

end StreamServiceModel
